import Mathlib

/-!
# Shallow embedding of the drug-shortage prediction pipeline

This file embeds the core of `ml_shortage_prediction.py` (class
`DrugShortagePredictor`) in Lean 4 and proves properties of it:

* `createTargetVariable` / `createTargetPositives` embed
  `create_target_variable` (the Label Constructor);
* `engineerFeaturesRow` embeds the per-row body of `engineer_features`
  (the Feature Builder);
* `fitClasses` / `leTransform` / `leInverse` / `encodeForScoring` embed the
  `LabelEncoder` usage in `prepare_for_modeling` and `predict_shortage_risk`;
* `trainModels` embeds the validation behaviour of `train_models`
  (the scikit-learn calls it makes);
* `buildPredRow`, `riskTier` and `predictShortageRisk` embed
  `predict_shortage_risk`.

Dates are modelled as `Int` day numbers counted from 2020-01-01, the fixed
epoch the source itself uses (`datetime(2020, 1, 1)`), so that
`days_since_epoch` equals the day number itself.  `pandas` timestamps compare
exactly by day here because every date in play is a calendar date.
Nullable string columns (`generic_name`, `company_name`, ...) are modelled as
`Option String`; pandas `NaN` is `none`, and comparisons with `NaN` are
always false, exactly as in pandas.
-/

/-- A row of `shortage_df` (table `drug_shortages`), restricted to the
columns the pipeline reads.  `generic_name`, `company_name` and
`therapeutic_category` are nullable in the data model. -/
structure ShortageEvent where
  generic_name : Option String
  company_name : Option String
  therapeutic_category : Option String
  initial_posting_date : Int
deriving DecidableEq, Repr

/-- A row of `enforcement_df` (table `drug_enforcement`), restricted to the
columns the pipeline reads. -/
structure EnforcementEvent where
  recalling_firm : Option String
  classification : Option String
  recall_initiation_date : Int
deriving DecidableEq, Repr

/-- A row of `target_df` as appended by `create_target_variable`
(a `LabeledObservation` in the vocabulary of the spec). -/
structure TargetRecord where
  drug_name : String
  company_name : Option String
  therapeutic_category : Option String
  reference_date : Int
  current_shortage : Bool
  future_shortage : Bool
  historical_shortage_count : Nat
  days_since_last_shortage : Int
deriving DecidableEq, Repr

/-- The fields of a `features_df` row (a `FeatureVector`) that the verified
properties refer to.  The remaining columns built by `engineer_features`
(`avg_shortage_duration`, `company_shortage_rate`,
`company_unique_drugs_affected`, calendar and lexical features) are not
referenced by any property in this development and are omitted. -/
structure FeatureRow where
  drug_name : String
  company_name : Option String
  reference_date : Int
  target : Bool
  historical_shortage_count : Nat
  days_since_last_shortage : Int
  company_shortage_count : Nat
  recent_enforcements_30d : Nat
  recent_enforcements_90d : Nat
  recent_enforcements_365d : Nat
  class_i_recalls : Nat
  days_since_last_enforcement : Int
deriving DecidableEq, Repr

/-! ## List utilities

`uniqueList` embeds `pandas.Series.unique` / `set(...)` iteration order
(first occurrence kept), `sortB` embeds `DataFrame.sort_values` (an
insertion sort; ties between equal keys are ordered arbitrarily by
`sort_values` as well, since it uses an unstable quicksort). -/

/-- Distinct elements of `l` not already in `seen`, keeping first
occurrences, in order.  Embeds `pandas.Series.unique`. -/
def dedupAux [BEq α] (seen : List α) : List α → List α
  | [] => []
  | x :: xs => if seen.contains x then dedupAux seen xs else x :: dedupAux (x :: seen) xs

/-- Distinct elements in first-occurrence order (`Series.unique`). -/
def uniqueList [BEq α] (l : List α) : List α := dedupAux [] l

/-- Insert `a` into `l` before the first element `b` with `¬ le a b`. -/
def insertB (le : α → α → Bool) (a : α) : List α → List α
  | [] => [a]
  | b :: l => if le a b then a :: b :: l else b :: insertB le a l

/-- Insertion sort by the boolean relation `le`.
Embeds `DataFrame.sort_values`. -/
def sortB (le : α → α → Bool) : List α → List α
  | [] => []
  | a :: l => insertB le a (sortB le l)

theorem perm_insertB (le : α → α → Bool) (a : α) (l : List α) :
    List.Perm (insertB le a l) (a :: l) := by
  induction l with
  | nil => rfl
  | cons b l ih =>
    simp only [insertB]
    split
    · rfl
    · exact (ih.cons b).trans (List.Perm.swap a b l)

theorem perm_sortB (le : α → α → Bool) (l : List α) : List.Perm (sortB le l) l := by
  induction l with
  | nil => rfl
  | cons a l ih => exact (perm_insertB le a (sortB le l)).trans (ih.cons a)

theorem mem_sortB (le : α → α → Bool) (l : List α) (a : α) :
    a ∈ sortB le l ↔ a ∈ l :=
  (perm_sortB le l).mem_iff

theorem mem_insertB (le : α → α → Bool) (a : α) (l : List α) (b : α) :
    b ∈ insertB le a l ↔ b = a ∨ b ∈ l := by
  rw [(perm_insertB le a l).mem_iff, List.mem_cons]

theorem pairwise_insertB (le : α → α → Bool)
    (total : ∀ a b, le a b = true ∨ le b a = true)
    (trans : ∀ a b c, le a b = true → le b c = true → le a c = true)
    (a : α) (l : List α) (h : l.Pairwise (fun x y => le x y = true)) :
    (insertB le a l).Pairwise (fun x y => le x y = true) := by
  induction l with
  | nil => simp [insertB]
  | cons b l ih =>
    rw [List.pairwise_cons] at h
    simp only [insertB]
    split
    · rename_i hab
      rw [List.pairwise_cons]
      refine ⟨?_, List.pairwise_cons.2 h⟩
      intro x hx
      rcases List.mem_cons.1 hx with rfl | hx
      · exact hab
      · exact trans a b x hab (h.1 x hx)
    · rename_i hab
      rw [List.pairwise_cons]
      refine ⟨?_, ih h.2⟩
      intro x hx
      rcases (mem_insertB le a l x).1 hx with hxa | hx
      · rw [hxa]
        rcases total a b with hab2 | hba
        · exact absurd hab2 hab
        · exact hba
      · exact h.1 x hx

theorem pairwise_sortB (le : α → α → Bool)
    (total : ∀ a b, le a b = true ∨ le b a = true)
    (trans : ∀ a b c, le a b = true → le b c = true → le a c = true)
    (l : List α) :
    (sortB le l).Pairwise (fun x y => le x y = true) := by
  induction l with
  | nil => simp [sortB]
  | cons a l ih => exact pairwise_insertB le total trans a (sortB le l) ih

/-! ## `create_target_variable` (the Label Constructor)

`create_target_variable` iterates over the distinct non-null
`generic_name` values of `shortage_df`; for each drug it sorts the rows of that drug by `initial_posting_date` ascending and appends one record per row,
labelling it by whether another row of the same drug lies in the forward
window `(d, d + 90]`.  Afterwards it would append 3 synthetic negatives for
every drug of `all_drugs` missing from the positive records
(`np.random.randint(30, 1000)` days before `datetime.now()`); the random
draws are modelled by an oracle `rand : String → Nat → Nat` giving the
draw for each drug and repetition. -/

/-- Ascending comparison on posting dates, as used by
`drug_data.sort_values` on `initial_posting_date`. -/
def dateLE (a b : ShortageEvent) : Bool := a.initial_posting_date ≤ b.initial_posting_date

/-- Embeds the maximum of the `initial_posting_date` column of
`historical_data`. -/
def maxDate (hist : List ShortageEvent) : Option Int :=
  (hist.map (fun e => e.initial_posting_date)).max?

/-- One record appended by the loop body of `create_target_variable`:
`all` is the full event list of the drug (`drug_data`), `hist` the rows before
the current one (`drug_data.iloc[:i]`), `record` the current row. -/
def mkTargetRecord (drug : String) (all hist : List ShortageEvent)
    (record : ShortageEvent) : TargetRecord :=
  { drug_name := drug
    company_name := record.company_name
    therapeutic_category := record.therapeutic_category
    reference_date := record.initial_posting_date
    current_shortage := true
    future_shortage := all.any fun e =>
      decide (record.initial_posting_date < e.initial_posting_date) &&
      decide (e.initial_posting_date ≤ record.initial_posting_date + 90)
    historical_shortage_count := hist.length
    days_since_last_shortage :=
      match maxDate hist with
      | some m => record.initial_posting_date - m
      | none => 999 }

/-- The loop `for i in range(len(drug_data))`, with `hist` accumulating the
already-visited prefix. -/
def drugRecordsAux (drug : String) (all : List ShortageEvent)
    (hist : List ShortageEvent) : List ShortageEvent → List TargetRecord
  | [] => []
  | record :: rest =>
    mkTargetRecord drug all hist record ::
      drugRecordsAux drug all (hist ++ [record]) rest

/-- All records produced for one drug (whose events are `evs`). -/
def drugRecords (drug : String) (evs : List ShortageEvent) : List TargetRecord :=
  let sorted := sortB dateLE evs
  drugRecordsAux drug sorted [] sorted

/-- Embeds `self.shortage_df.generic_name.dropna().unique()`. -/
def uniqueDrugs (df : List ShortageEvent) : List String :=
  uniqueList (df.filterMap (fun e => e.generic_name))

/-- The first phase of `create_target_variable`: records for real events. -/
def createTargetPositives (df : List ShortageEvent) : List TargetRecord :=
  (uniqueDrugs df).flatMap fun drug =>
    drugRecords drug (df.filter fun e => decide (e.generic_name = some drug))

/-- One synthetic negative example (`r` is the `np.random.randint(30, 1000)`
draw, `now` the day number of `datetime.now()`). -/
def syntheticNegative (drug : String) (now : Int) (r : Nat) : TargetRecord :=
  { drug_name := drug
    company_name := some "Unknown"
    therapeutic_category := some "Unknown"
    reference_date := now - r
    current_shortage := false
    future_shortage := false
    historical_shortage_count := 0
    days_since_last_shortage := 999 }

/-- Embeds `create_target_variable`: positives for every real event, then 3
synthetic negatives for every drug of `all_drugs` that acquired no
positive record. -/
def createTargetVariable (df : List ShortageEvent) (now : Int)
    (rand : String → Nat → Nat) : List TargetRecord :=
  let positives := createTargetPositives df
  let shortageDrugs := positives.map (fun r => r.drug_name)
  positives ++
    ((uniqueDrugs df).filter fun d => !(shortageDrugs.contains d)).flatMap
      (fun d => [syntheticNegative d now (rand d 0),
                 syntheticNegative d now (rand d 1),
                 syntheticNegative d now (rand d 2)])

/-! ## `engineer_features` (the Feature Builder)

The body of the `for _, row in self.target_df.iterrows()` loop.  The three
dataframe filters become list filters; the fuzzy company-to-enforcement
join `recalling_firm.str.contains(company_name[:10], case=False, na=False)`
is modelled as case-insensitive (ASCII) substring containment of the first
10 characters of the company name; `na=False` makes a null `recalling_firm`
never match.  When `company_name` is null (`NaN`), the slice
`company_name[:10]` raises `TypeError` in Python; this is modelled by
`Except.error`. -/

/-- Case-insensitive substring test on character lists. -/
def charsContain : List Char → List Char → Bool
  | [], pat => pat.isEmpty
  | c :: rest, pat => pat.isPrefixOf (c :: rest) || charsContain rest pat

/-- The lower-cased characters of a string (the `case=False` lowering). -/
def lowerChars (s : String) : List Char := s.data.map Char.toLower

/-- Embeds `recalling_firm.str.contains(pat, case=False, na=False)` for one cell,
with `pat` already lower-cased. -/
def firmContains (firm : Option String) (pat : List Char) : Bool :=
  match firm with
  | none => false
  | some f => charsContain (lowerChars f) pat

/-- The lower-cased first 10 characters of the company name
(`company_name[:10]`, with the `case=False` lowering applied). -/
def companySlice10 (cname : String) : List Char :=
  (lowerChars cname).take 10

/-- Embeds the comparison of the `company_name` column with
`company_name` for one cell: a pandas
comparison against `NaN` (a null company) is always `False`. -/
def companyEq (cell : Option String) (company : Option String) : Bool :=
  match company with
  | none => false
  | some c => decide (cell = some c)

/-- The filter `historical_shortages`: same-drug rows strictly before the reference
date. -/
def histShortages (sdf : List ShortageEvent) (drug : String) (ref : Int) :
    List ShortageEvent :=
  sdf.filter fun e =>
    decide (e.generic_name = some drug) && decide (e.initial_posting_date < ref)

/-- The filter `company_shortages`: same-company rows strictly before the reference
date. -/
def companyShortages (sdf : List ShortageEvent) (company : Option String)
    (ref : Int) : List ShortageEvent :=
  sdf.filter fun e =>
    companyEq e.company_name company && decide (e.initial_posting_date < ref)

/-- The filter `company_enforcements`: fuzzy-matched enforcement rows strictly before
the reference date. -/
def companyEnforcements (edf : List EnforcementEvent) (cname : String)
    (ref : Int) : List EnforcementEvent :=
  edf.filter fun e =>
    firmContains e.recalling_firm (companySlice10 cname) &&
    decide (e.recall_initiation_date < ref)

/-- The body of the `engineer_features` loop for one `target_df` row,
producing the feature columns this development refers to.  A null
`company_name` raises (`company_name[:10]` on `NaN`), modelled as
`Except.error`. -/
def engineerFeaturesRow (row : TargetRecord) (sdf : List ShortageEvent)
    (edf : List EnforcementEvent) : Except String FeatureRow :=
  let ref := row.reference_date
  let historical := histShortages sdf row.drug_name ref
  let compShort := companyShortages sdf row.company_name ref
  match row.company_name with
  | none => Except.error "TypeError: slicing a float NaN company_name"
  | some cname =>
    let compEnf := companyEnforcements edf cname ref
    Except.ok
      { drug_name := row.drug_name
        company_name := row.company_name
        reference_date := ref
        target := row.future_shortage
        historical_shortage_count := historical.length
        days_since_last_shortage := row.days_since_last_shortage
        company_shortage_count := compShort.length
        recent_enforcements_30d :=
          (compEnf.filter fun e => decide (ref - 30 < e.recall_initiation_date)).length
        recent_enforcements_90d :=
          (compEnf.filter fun e => decide (ref - 90 < e.recall_initiation_date)).length
        recent_enforcements_365d :=
          (compEnf.filter fun e => decide (ref - 365 < e.recall_initiation_date)).length
        class_i_recalls :=
          (compEnf.filter fun e => decide (e.classification = some "Class I")).length
        days_since_last_enforcement :=
          match (compEnf.map fun e => e.recall_initiation_date).max? with
          | some m => ref - m
          | none => 999 }

/-! ## `prepare_for_modeling`: the fitted `LabelEncoder`

`LabelEncoder.fit` stores `classes_ = np.unique(values)` (the distinct
values sorted ascending); `transform` maps a value to its index in
`classes_`; `inverse_transform` maps an index back.  At scoring time the
source does not call `transform` but builds
`dict(zip(le.classes_, le.transform(le.classes_)))`, maps through it and
fills misses with `-1` (`.map(...).fillna(-1)`), so an unseen category
becomes the sentinel `-1` and no exception is raised. -/

/-- Embeds `np.unique`: the distinct values sorted ascending. -/
def fitClasses (values : List String) : List String :=
  sortB (fun a b => decide (a ≤ b)) (uniqueList values)

/-- Embeds `LabelEncoder.transform` for a single value: its index among the
fitted classes (meaningful when the value is one of them). -/
def leTransform (classes : List String) (v : String) : Nat :=
  match classes with
  | [] => 0
  | c :: rest => if c = v then 0 else leTransform rest v + 1

/-- Embeds `LabelEncoder.inverse_transform` for a single code. -/
def leInverse (classes : List String) (code : Nat) : Option String :=
  classes.get? code

/-- The scoring-time encoding
`pred_df[col].map(dict(zip(classes_, transform(classes_)))).fillna(-1)`:
a known category gets its code, an unseen one the sentinel `-1`.  The
function is total: no exception can be raised. -/
def encodeForScoring (classes : List String) (v : String) : Int :=
  if v ∈ classes then (leTransform classes v : Int) else -1

/-! ## `train_models`: validation behaviour of the fit

`train_models` calls
`train_test_split(X, y, test_size=0.2, random_state=42, stratify=y)` and
then fits LogisticRegression, RandomForest and XGBoost in that order,
storing each in `self.models` after its `fit` returns.  The validation
behaviour of those library calls (scikit-learn) is:

* `_validate_shuffle_split`: with `test_size=0.2`,
  `n_test = ceil(n/5)` and `n_train = n - n_test`; an empty train or test
  set raises `ValueError`;
* `StratifiedShuffleSplit._iter_indices`: raises if the least populated
  class has fewer than 2 members, or if `n_train` or `n_test` is smaller
  than the number of classes.  A single class with at least two members
  passes all of these checks;
* `LogisticRegression.fit`: raises `ValueError` when the data contains
  fewer than 2 distinct classes.  `RandomForestClassifier.fit` and
  `XGBClassifier.fit` accept a single class.

An exception aborts the method, leaving `self.models` with exactly the
models stored before it was raised. -/

/-- Which library call raised: the train/test split or the logistic
regression fit. -/
inductive FitStage
  | split
  | lrFit
deriving DecidableEq, Repr

/-- The value `ceil(0.2 * n)`, the held-out test size of an 80/20 split. -/
def nTest (n : Nat) : Nat := (n + 4) / 5

/-- The value `floor(0.8 * n)`, the train size of an 80/20 split. -/
def nTrain (n : Nat) : Nat := n - nTest n

/-- Validation performed by
`train_test_split(..., test_size=0.2, stratify=y)`. -/
def stratifiedSplitCheck (y : List Bool) : Option String :=
  let n := y.length
  if nTrain n = 0 ∨ nTest n = 0 then
    some "ValueError: the resulting train set or test set will be empty"
  else
    let classes := uniqueList y
    if (classes.map fun c => (y.filter fun v => v == c).length).any (· < 2) then
      some "ValueError: the least populated class in y has only 1 member"
    else if nTrain n < classes.length ∨ nTest n < classes.length then
      some "ValueError: train or test size smaller than the number of classes"
    else
      none

/-- The class-count validation in `LogisticRegression.fit`. -/
def lrFitCheck (y : List Bool) : Option String :=
  if (uniqueList y).length < 2 then
    some "ValueError: this solver needs samples of at least 2 classes"
  else
    none

/-- Embeds `train_models` as observed through the trained-model dictionary and
the exception it may raise: the split validation runs first, then the
logistic-regression fit (the first model fit), then the tree models. -/
def trainModels (y : List Bool) : List String × Option (FitStage × String) :=
  match stratifiedSplitCheck y with
  | some msg => ([], some (FitStage.split, msg))
  | none =>
    match lrFitCheck y with
    | some msg => ([], some (FitStage.lrFit, msg))
    | none => (["logistic_regression", "random_forest", "xgboost"], none)

/-! ## `predict_shortage_risk` (scoring)

The method reads the wall clock (`current_date = datetime.now()`), builds
one small feature row per candidate drug (the first at most 100 of
`features_df.drug_name.unique()`, or the single drug passed as a
filter), scores the rows with the `predict_proba` of the selected model
(deterministic for a fixed fitted model, abstracted here as a function
`model : PredRow → ℚ`), attaches a risk tier via
`pd.cut(p, bins=[0, 0.3, 0.7, 1.0], labels=[Low, Medium, High])`, and
returns the frame sorted by probability descending.  Only the *printed*
preview is limited to `top_n` rows (`results.head(top_n)`); the returned
frame is not truncated.  The clock is modelled as an explicit argument
`now`, making the hidden input visible. -/

/-- Gregorian calendar date (year, month, day) of a day number counted
from 1970-01-01 (the civil-from-days algorithm; exact for the proleptic
Gregorian calendar that the Python `datetime` module uses). -/
def civilFromDays (z0 : Int) : Int × Int × Int :=
  let z := z0 + 719468
  let era : Int := (if 0 ≤ z then z else z - 146096) / 146097
  let doe : Int := z - era * 146097
  let yoe : Int := (doe - doe / 1460 + doe / 36524 - doe / 146096) / 365
  let y : Int := yoe + era * 400
  let doy : Int := doe - (365 * yoe + yoe / 4 - yoe / 100)
  let mp : Int := (5 * doy + 2) / 153
  let d : Int := doy - (153 * mp + 2) / 5 + 1
  let m : Int := if mp < 10 then mp + 3 else mp - 9
  (if m ≤ 2 then y + 1 else y, m, d)

/-- The day 2020-01-01 (the day-number origin of this file) counted in
days from 1970-01-01. -/
def epochOffset : Int := 18262

/-- Embeds `date.month` for a day number counted from 2020-01-01. -/
def monthOf (date : Int) : Int := (civilFromDays (date + epochOffset)).2.1

/-- Embeds `date.year` for a day number counted from 2020-01-01. -/
def yearOf (date : Int) : Int := (civilFromDays (date + epochOffset)).1

/-- The feature dictionary built per drug inside `predict_shortage_risk`. -/
structure PredRow where
  drug_name : String
  company_name : Option String
  historical_shortage_count : Nat
  days_since_last_shortage : Int
  company_shortage_count : Nat
  month : Int
  quarter : Int
  year : Int
  days_since_epoch : Int
deriving DecidableEq, Repr

/-- One row of the frame returned by `predict_shortage_risk`. -/
structure ResultRow where
  drug_name : String
  company_name : Option String
  shortage_probability : ℚ
  risk_level : Option String
deriving DecidableEq, Repr

/-- Embeds `pd.cut(p, bins=[0, 0.3, 0.7, 1.0], labels=[Low, Medium, High])`
for one value: `pd.cut` buckets are left-open and right-closed
(`right=True`, `include_lowest=False`), so the buckets are `(0, 0.3]`,
`(0.3, 0.7]` and `(0.7, 1]`, and a value outside them — in particular an
exact 0 — gets `NaN` (`none`). -/
def riskTier (p : ℚ) : Option String :=
  if 0 < p ∧ p ≤ 3/10 then some "Low"
  else if 3/10 < p ∧ p ≤ 7/10 then some "Medium"
  else if 7/10 < p ∧ p ≤ 1 then some "High"
  else none

/-- The per-drug loop body of `predict_shortage_risk`: `none` when the
drug has no `shortage_df` rows (the `continue` branch). -/
def buildPredRow (df : List ShortageEvent) (companyFilter : Option String)
    (now : Int) (drug : String) : Option PredRow :=
  let drug_data := df.filter fun e => decide (e.generic_name = some drug)
  match drug_data.head? with
  | none => none
  | some first =>
    let company : Option String :=
      match companyFilter with
      | some c => some c
      | none => first.company_name
    let hist := drug_data.filter fun e => decide (e.initial_posting_date < now)
    let compShort := df.filter fun e =>
      companyEq e.company_name company && decide (e.initial_posting_date < now)
    some
      { drug_name := drug
        company_name := company
        historical_shortage_count := hist.length
        days_since_last_shortage :=
          match (hist.map fun e => e.initial_posting_date).max? with
          | some m => now - m
          | none => 999
        company_shortage_count := compShort.length
        month := monthOf now
        quarter := (monthOf now - 1) / 3 + 1
        year := yearOf now
        days_since_epoch := now }

/-- Descending comparison on probabilities
(`sort_values` on `shortage_probability`, descending). -/
def probGE (a b : ResultRow) : Bool := b.shortage_probability ≤ a.shortage_probability

/-- Embeds `predict_shortage_risk`: the returned results frame.  `top_n` only
limits the printed preview (`predictedPreview` below), never the returned
frame.  `now` is the day number `datetime.now()` evaluates to. -/
def predictShortageRisk (model : PredRow → ℚ) (featureDrugs : List String)
    (df : List ShortageEvent) (drugFilter companyFilter : Option String)
    (top_n : Nat) (now : Int) : List ResultRow :=
  let drugs := match drugFilter with
    | some d => [d]
    | none => featureDrugs
  let rows := (drugs.take 100).filterMap (buildPredRow df companyFilter now)
  let scored := rows.map fun r =>
    { drug_name := r.drug_name
      company_name := r.company_name
      shortage_probability := model r
      risk_level := riskTier (model r) : ResultRow }
  sortB probGE scored

/-- Embeds `print(results.head(top_n))`: the console preview. -/
def predictedPreview (model : PredRow → ℚ) (featureDrugs : List String)
    (df : List ShortageEvent) (drugFilter companyFilter : Option String)
    (top_n : Nat) (now : Int) : List ResultRow :=
  (predictShortageRisk model featureDrugs df drugFilter companyFilter top_n now).take top_n

/-! ## Properties -/

/-- C3 (counterexample).  The claim states left-closed/right-open
buckets with `risk_tier(0.0) = Low` and `risk_tier(0.3) = Medium`.
`pd.cut` with `bins=[0, 0.3, 0.7, 1.0]` uses left-open/right-closed
intervals and excludes the leftmost edge, so a probability of exactly `0`
receives no tier (`NaN`) and `0.3` falls in the `Low` bucket
`(0, 0.3]`, not `Medium`. -/
theorem c3_counterexample :
    riskTier 0 = none ∧ riskTier (3/10) = some "Low" := by
  constructor
  · unfold riskTier
    rw [if_neg, if_neg, if_neg]
    · rintro ⟨h, -⟩; norm_num at h
    · rintro ⟨h, -⟩; norm_num at h
    · rintro ⟨h, -⟩; norm_num at h
  · unfold riskTier
    rw [if_pos]
    constructor <;> norm_num

/-- C3 (amended).  The risk-tier function is a total pure function of
the probability with left-open, right-closed buckets: `(0, 0.3]` maps to
`Low`, `(0.3, 0.7]` to `Medium`, `(0.7, 1]` to `High`, and any other
probability — in particular an exact `0` — maps to no tier (`pd.cut`
yields `NaN`). -/
theorem c3_risk_tier_buckets (p : ℚ) :
    (riskTier p = some "Low" ↔ 0 < p ∧ p ≤ 3/10) ∧
    (riskTier p = some "Medium" ↔ 3/10 < p ∧ p ≤ 7/10) ∧
    (riskTier p = some "High" ↔ 7/10 < p ∧ p ≤ 1) ∧
    (riskTier p = none ↔ p ≤ 0 ∨ 1 < p) := by
  unfold riskTier
  split_ifs with h1 h2 h3
  · refine ⟨⟨fun _ => h1, fun _ => rfl⟩, ?_, ?_, ?_⟩
    · exact ⟨fun h => absurd h (by decide),
        fun h => absurd h.1 (not_lt.2 h1.2)⟩
    · exact ⟨fun h => absurd h (by decide),
        fun h => absurd h.1 (not_lt.2 (h1.2.trans (by norm_num)))⟩
    · refine ⟨fun h => absurd h (by decide), ?_⟩
      rintro (h | h)
      · exact absurd h1.1 (not_lt.2 h)
      · exact absurd h (not_lt.2 (h1.2.trans (by norm_num)))
  · refine ⟨?_, ⟨fun _ => h2, fun _ => rfl⟩, ?_, ?_⟩
    · exact ⟨fun h => absurd h (by decide), fun h => absurd h h1⟩
    · exact ⟨fun h => absurd h (by decide),
        fun h => absurd h.1 (not_lt.2 h2.2)⟩
    · refine ⟨fun h => absurd h (by decide), ?_⟩
      rintro (h | h)
      · exact absurd h (not_le.2 (lt_trans (by norm_num) h2.1))
      · exact absurd h (not_lt.2 (h2.2.trans (by norm_num)))
  · refine ⟨?_, ?_, ⟨fun _ => h3, fun _ => rfl⟩, ?_⟩
    · exact ⟨fun h => absurd h (by decide), fun h => absurd h h1⟩
    · exact ⟨fun h => absurd h (by decide), fun h => absurd h h2⟩
    · refine ⟨fun h => absurd h (by decide), ?_⟩
      rintro (h | h)
      · exact absurd h (not_le.2 (lt_trans (by norm_num) h3.1))
      · exact absurd h (not_lt.2 h3.2)
  · refine ⟨?_, ?_, ?_, ⟨fun _ => ?_, fun _ => rfl⟩⟩
    · exact ⟨fun h => absurd h (by decide), fun h => absurd h h1⟩
    · exact ⟨fun h => absurd h (by decide), fun h => absurd h h2⟩
    · exact ⟨fun h => absurd h (by decide), fun h => absurd h h3⟩
    · by_cases hp : 0 < p
      · right
        have hp3 : 3/10 < p := by
          by_contra hle
          exact h1 ⟨hp, not_lt.1 hle⟩
        have hp7 : 7/10 < p := by
          by_contra hle
          exact h2 ⟨hp3, not_lt.1 hle⟩
        by_contra hle
        exact h3 ⟨hp7, not_lt.1 hle⟩
      · exact Or.inl (not_lt.1 hp)

/-- C10 (confirmed).  For every observation whose `company_name` is
null — a value the data model allows — `engineer_features` does not build
a `FeatureVector` but raises: the fuzzy enforcement join slices
`company_name[:10]`, undefined for `NaN`, so the Feature Builder is
partial on null company names. -/
theorem c10_null_company_raises (row : TargetRecord) (sdf : List ShortageEvent)
    (edf : List EnforcementEvent) (h : row.company_name = none) :
    engineerFeaturesRow row sdf edf =
      Except.error "TypeError: slicing a float NaN company_name" := by
  unfold engineerFeaturesRow
  rw [h]

/-- C10 (witness): a concrete observation with a null company name on
concrete event tables. -/
theorem c10_null_company_raises_witness :
    engineerFeaturesRow
      { drug_name := "acetaminophen", company_name := none,
        therapeutic_category := none, reference_date := 1100,
        current_shortage := true, future_shortage := false,
        historical_shortage_count := 1, days_since_last_shortage := 4 }
      [{ generic_name := some "acetaminophen", company_name := none,
         therapeutic_category := none, initial_posting_date := 1096 }]
      [{ recalling_firm := some "Some Firm", classification := some "Class I",
         recall_initiation_date := 1000 }] =
      Except.error "TypeError: slicing a float NaN company_name" :=
  c10_null_company_raises _ _ _ rfl

theorem mem_dedupAux [BEq α] [LawfulBEq α] (seen l : List α) (x : α) :
    x ∈ dedupAux seen l ↔ x ∈ l ∧ x ∉ seen := by
  induction l generalizing seen with
  | nil => simp [dedupAux]
  | cons y ys ih =>
    simp only [dedupAux]
    split
    · rename_i hy
      rw [ih]
      have hy' : y ∈ seen := by
        have := List.elem_iff.1 hy
        exact this
      simp only [List.mem_cons]
      constructor
      · rintro ⟨hm, hs⟩
        exact ⟨Or.inr hm, hs⟩
      · rintro ⟨hm | hm, hs⟩
        · exact absurd (hm ▸ hy') hs
        · exact ⟨hm, hs⟩
    · rename_i hy
      have hy' : y ∉ seen := fun hm => hy (List.elem_iff.2 hm)
      simp only [List.mem_cons, ih]
      constructor
      · rintro (hx | ⟨hm, hs⟩)
        · exact ⟨Or.inl hx, hx ▸ hy'⟩
        · exact ⟨Or.inr hm, fun hmem => hs (Or.inr hmem)⟩
      · rintro ⟨hx | hm, hs⟩
        · exact Or.inl hx
        · by_cases hxy : x = y
          · exact Or.inl hxy
          · exact Or.inr ⟨hm, fun hmem => hmem.elim hxy hs⟩

theorem mem_uniqueList [BEq α] [LawfulBEq α] (l : List α) (x : α) :
    x ∈ uniqueList l ↔ x ∈ l := by
  rw [uniqueList, mem_dedupAux]
  simp

theorem mem_fitClasses (values : List String) (v : String) :
    v ∈ fitClasses values ↔ v ∈ values := by
  rw [fitClasses, mem_sortB, mem_uniqueList]

theorem leTransform_get (classes : List String) (v : String) (h : v ∈ classes) :
    classes.get? (leTransform classes v) = some v := by
  induction classes with
  | nil => cases h
  | cons c rest ih =>
    simp only [leTransform]
    split
    · rename_i hc
      simp [hc]
    · rename_i hc
      have hv : v ∈ rest := by
        rcases List.mem_cons.1 h with rfl | hv
        · exact absurd rfl hc
        · exact hv
      simpa using ih hv

/-- C7 (confirmed).  Encoding a category observed during fit and
decoding it through the fitted encoder returns the original category; a
category not seen during fit is mapped at scoring time to the sentinel
code `-1` by `.map(dict(...)).fillna(-1)` — a total operation that cannot
raise. -/
theorem c7_encoder_roundtrip_and_sentinel :
    (∀ (values : List String) (v : String), v ∈ values →
      leInverse (fitClasses values) (leTransform (fitClasses values) v) = some v) ∧
    (∀ (values : List String) (v : String), v ∉ values →
      encodeForScoring (fitClasses values) v = -1) := by
  constructor
  · intro values v hv
    exact leTransform_get _ _ ((mem_fitClasses values v).2 hv)
  · intro values v hv
    rw [encodeForScoring, if_neg]
    intro hmem
    exact hv ((mem_fitClasses values v).1 hmem)

/-- C7 (witness): fitting on `["b", "a"]`, the seen category `"a"`
round-trips and the unseen category `"z"` encodes to `-1`. -/
theorem c7_encoder_roundtrip_and_sentinel_witness :
    leInverse (fitClasses ["b", "a"]) (leTransform (fitClasses ["b", "a"]) "a") =
        some "a" ∧
    encodeForScoring (fitClasses ["b", "a"]) "z" = -1 :=
  ⟨c7_encoder_roundtrip_and_sentinel.1 ["b", "a"] "a" (by simp),
   c7_encoder_roundtrip_and_sentinel.2 ["b", "a"] "z" (by simp)⟩

/-- C8 (counterexample).  The claim states that fitting a label column
with a single class raises *before any model fit is attempted*, out of the
stratified 80/20 split.  On a single-class label column with three rows
the stratified split succeeds (each class has at least 2 members and the
train and test parts can hold the single class); the error is instead
raised by `LogisticRegression.fit` — the first attempted model fit. -/
theorem c8_counterexample :
    (trainModels [false, false, false]).1 = [] ∧
    (trainModels [false, false, false]).2 =
      some (FitStage.lrFit, "ValueError: this solver needs samples of at least 2 classes") ∧
    FitStage.lrFit ≠ FitStage.split := by
  refine ⟨rfl, rfl, by decide⟩

/-- C8 (amended).  For every label column with zero classes or a
single class, fitting raises a descriptive `ValueError` and leaves no
model trained; with zero samples the error comes from the train/test
split validation, but with a single class of at least two samples the
stratified split succeeds and the error is raised by the
logistic-regression fit — the first model fit — not before it. -/
theorem c8_single_class_fit_fails (y : List Bool)
    (h : (uniqueList y).length ≤ 1) :
    (trainModels y).1 = [] ∧ (trainModels y).2.isSome = true := by
  unfold trainModels
  cases hs : stratifiedSplitCheck y with
  | some msg => exact ⟨rfl, rfl⟩
  | none =>
    have hlr : lrFitCheck y =
        some "ValueError: this solver needs samples of at least 2 classes" := by
      rw [lrFitCheck, if_pos (by omega)]
    rw [hlr]
    exact ⟨rfl, rfl⟩

/-- C8 (witness): a single-class label column with two samples. -/
theorem c8_single_class_fit_fails_witness :
    (uniqueList [false, false]).length ≤ 1 ∧
    (trainModels [false, false]).1 = [] ∧
    (trainModels [false, false]).2.isSome = true :=
  ⟨by decide, c8_single_class_fit_fails [false, false] (by decide)⟩

theorem mem_drugRecordsAux (drug : String) (all : List ShortageEvent)
    (hist rest : List ShortageEvent) (r : TargetRecord)
    (h : r ∈ drugRecordsAux drug all hist rest) :
    ∃ pre record post, rest = pre ++ record :: post ∧
      r = mkTargetRecord drug all (hist ++ pre) record := by
  induction rest generalizing hist with
  | nil => cases h
  | cons record rest ih =>
    rcases List.mem_cons.1 h with hr | hr
    · exact ⟨[], record, rest, by simp, by simpa using hr⟩
    · obtain ⟨pre, rec2, post, hrest, hr2⟩ := ih (hist ++ [record]) hr
      refine ⟨record :: pre, rec2, post, by simp [hrest], ?_⟩
      rw [List.append_assoc] at hr2
      simpa using hr2

/-- The three-event scenario of the claim: events on 2023-01-01 (day 1096
from 2020-01-01), 2023-02-15 (day 1141) and 2023-06-01 (day 1247). -/
def c2Events : List ShortageEvent :=
  [{ generic_name := some "drugx", company_name := some "c",
     therapeutic_category := none, initial_posting_date := 1096 },
   { generic_name := some "drugx", company_name := some "c",
     therapeutic_category := none, initial_posting_date := 1141 },
   { generic_name := some "drugx", company_name := some "c",
     therapeutic_category := none, initial_posting_date := 1247 }]

/-- The first record the Label Constructor produces for `c2Events`. -/
def c2Record : TargetRecord :=
  { drug_name := "drugx", company_name := some "c",
    therapeutic_category := none, reference_date := 1096,
    current_shortage := true, future_shortage := true,
    historical_shortage_count := 0, days_since_last_shortage := 999 }

/-- C2 (confirmed).  For every drug and each of its events at date
`d`, the label is true iff at least one same-drug event has a date in the
half-open window `(d, d + 90]`; and on the concrete scenario with events
on 2023-01-01, 2023-02-15 and 2023-06-01 the labels are
`[true, false, false]`. -/
theorem c2_label_horizon :
    (∀ (drug : String) (evs : List ShortageEvent) (r : TargetRecord),
        r ∈ drugRecords drug evs →
        (r.future_shortage = true ↔
          ∃ e ∈ evs, r.reference_date < e.initial_posting_date ∧
            e.initial_posting_date ≤ r.reference_date + 90)) ∧
    (createTargetPositives c2Events).map (fun r => r.future_shortage) =
      [true, false, false] := by
  constructor
  · intro drug evs r hr
    simp only [drugRecords] at hr
    obtain ⟨pre, record, post, hs, hrec⟩ := mem_drugRecordsAux _ _ _ _ _ hr
    subst hrec
    simp only [mkTargetRecord]
    rw [List.any_eq_true]
    constructor
    · rintro ⟨e, he, hcond⟩
      rw [Bool.and_eq_true, decide_eq_true_eq, decide_eq_true_eq] at hcond
      exact ⟨e, (mem_sortB dateLE evs e).1 he, hcond.1, hcond.2⟩
    · rintro ⟨e, he, h1, h2⟩
      refine ⟨e, (mem_sortB dateLE evs e).2 he, ?_⟩
      rw [Bool.and_eq_true, decide_eq_true_eq, decide_eq_true_eq]
      exact ⟨h1, h2⟩
  · decide

/-- C2 (witness): the first scenario record, whose label is true
because the 2023-02-15 event lies 45 days after it. -/
theorem c2_label_horizon_witness :
    c2Record.future_shortage = true ↔
      ∃ e ∈ c2Events, c2Record.reference_date < e.initial_posting_date ∧
        e.initial_posting_date ≤ c2Record.reference_date + 90 :=
  c2_label_horizon.1 "drugx" c2Events c2Record (by decide)

theorem length_drugRecordsAux (drug : String) (all hist rest : List ShortageEvent) :
    (drugRecordsAux drug all hist rest).length = rest.length := by
  induction rest generalizing hist with
  | nil => rfl
  | cons record rest ih => simp [drugRecordsAux, ih]

theorem exists_event_of_mem_uniqueDrugs (df : List ShortageEvent) (d : String)
    (hd : d ∈ uniqueDrugs df) : ∃ e ∈ df, e.generic_name = some d := by
  rw [uniqueDrugs, mem_uniqueList] at hd
  obtain ⟨e, he, hge⟩ := List.mem_filterMap.1 hd
  exact ⟨e, he, hge⟩

theorem drug_name_of_mem_drugRecords (drug : String) (evs : List ShortageEvent)
    (r : TargetRecord) (hr : r ∈ drugRecords drug evs) :
    r.drug_name = drug ∧ r.current_shortage = true := by
  simp only [drugRecords] at hr
  obtain ⟨pre, record, post, hs, hrec⟩ := mem_drugRecordsAux _ _ _ _ _ hr
  subst hrec
  exact ⟨rfl, rfl⟩

theorem uniqueDrugs_covered (df : List ShortageEvent) (d : String)
    (hd : d ∈ uniqueDrugs df) :
    d ∈ (createTargetPositives df).map (fun r => r.drug_name) := by
  obtain ⟨e, he, hge⟩ := exists_event_of_mem_uniqueDrugs df d hd
  have hne : (df.filter fun e => decide (e.generic_name = some d)) ≠ [] :=
    List.ne_nil_of_mem (List.mem_filter.2 ⟨he, by rw [decide_eq_true_eq]; exact hge⟩)
  have hlen : (drugRecords d (df.filter fun e => decide (e.generic_name = some d))).length ≠ 0 := by
    simp only [drugRecords, length_drugRecordsAux]
    rw [(perm_sortB dateLE _).length_eq]
    simpa [List.length_eq_zero] using hne
  have hne2 : drugRecords d (df.filter fun e => decide (e.generic_name = some d)) ≠ [] := by
    intro hnil
    rw [hnil] at hlen
    exact hlen rfl
  obtain ⟨r, hr⟩ := List.exists_mem_of_ne_nil _ hne2
  rw [List.mem_map]
  refine ⟨r, ?_, (drug_name_of_mem_drugRecords _ _ _ hr).1⟩
  rw [createTargetPositives, List.mem_flatMap]
  exact ⟨d, hd, hr⟩

/-- C4 (code bug).  The synthetic-negative branch of
`create_target_variable` is dead code: `all_drugs` is computed from the
same `generic_name` column whose drugs all received positive records, so
no drug known to the pipeline has zero shortage events and the output
always equals the positive records alone — no synthetic negative
observation is ever created, for any input table, clock value or random
draw. -/
theorem c4_negative_branch_dead (df : List ShortageEvent) (now : Int)
    (rand : String → Nat → Nat) :
    createTargetVariable df now rand = createTargetPositives df := by
  have hfilter : ((uniqueDrugs df).filter fun d =>
      !(((createTargetPositives df).map (fun r => r.drug_name)).contains d)) = [] := by
    rw [List.filter_eq_nil_iff]
    intro d hd
    have hc : ((createTargetPositives df).map (fun r => r.drug_name)).contains d = true :=
      List.elem_iff.2 (uniqueDrugs_covered df d hd)
    rw [hc]
    decide
  simp only [createTargetVariable]
  rw [hfilter]
  simp

theorem length_sortB (le : α → α → Bool) (l : List α) :
    (sortB le l).length = l.length :=
  (perm_sortB le l).length_eq

/-- C6 (amended).  The frame returned by `predict_shortage_risk` is
sorted by `shortage_probability` descending, but it is *not* truncated to
`top_n` rows: only the printed preview (`results.head(top_n)`) is.  The
returned frame holds one row per scored drug, and the candidate list is
capped at 100 drugs. -/
theorem c6_score_sorted_untruncated (model : PredRow → ℚ)
    (featureDrugs : List String) (df : List ShortageEvent)
    (drugFilter companyFilter : Option String) (top_n : Nat) (now : Int) :
    (predictShortageRisk model featureDrugs df drugFilter companyFilter top_n now).Pairwise
      (fun a b => b.shortage_probability ≤ a.shortage_probability) ∧
    (predictShortageRisk model featureDrugs df drugFilter companyFilter top_n now).length ≤ 100 ∧
    predictedPreview model featureDrugs df drugFilter companyFilter top_n now =
      (predictShortageRisk model featureDrugs df drugFilter companyFilter top_n now).take top_n := by
  refine ⟨?_, ?_, rfl⟩
  · simp only [predictShortageRisk]
    refine List.Pairwise.imp ?_ (pairwise_sortB probGE ?_ ?_ _)
    · intro a b h
      simp only [probGE] at h
      exact of_decide_eq_true h
    · intro a b
      simp only [probGE, decide_eq_true_eq]
      exact le_total _ _
    · intro a b c hab hbc
      simp only [probGE, decide_eq_true_eq] at hab hbc ⊢
      exact le_trans hbc hab
  · simp only [predictShortageRisk]
    rw [length_sortB, List.length_map]
    exact le_trans (List.length_filterMap_le _ _) (List.length_take_le _ _)

/-- C6 (counterexample).  The claim states the *returned* sequence
contains at most `top_n` rows.  With two scorable drugs and `top_n = 1`
the returned frame has 2 rows: `results.head(top_n)` only limits the
printed preview, the method returns the full sorted frame. -/
theorem c6_counterexample :
    ¬((predictShortageRisk (fun _ => 0) ["druga", "drugb"]
        [{ generic_name := some "druga", company_name := some "c",
           therapeutic_category := none, initial_posting_date := 10 },
         { generic_name := some "drugb", company_name := some "c",
           therapeutic_category := none, initial_posting_date := 20 }]
        none none 1 100).length ≤ 1) := by
  decide

/-- The model and event table of the C9 instance: a fitted classifier is a
fixed function of the feature row, here one sensitive to
`days_since_epoch` (as any trained model may be). -/
def c9Model : PredRow → ℚ := fun r => if r.days_since_epoch ≤ 500 then 0 else 1

/-- The event table of the C9 instance. -/
def c9Df : List ShortageEvent :=
  [{ generic_name := some "druga", company_name := some "c",
     therapeutic_category := none, initial_posting_date := 100 }]

/-- C9 (counterexample).  The claim states two calls with identical
inputs (same model, same data, same filters) return bit-identical
probabilities, with no hidden source of nondeterminism.  But
`predict_shortage_risk` reads the wall clock (`datetime.now()`), which is
not one of its inputs: the same call made at day 200 and at day 1000
returns different probabilities for the same fixed model and data. -/
theorem c9_counterexample :
    predictShortageRisk c9Model ["druga"] c9Df none none 20 200 ≠
      predictShortageRisk c9Model ["druga"] c9Df none none 20 1000 := by
  decide

/-- C9 (amended).  Scoring is deterministic given the clock: the
probability outputs are a pure function of the model, the event data, the
filters and the `datetime.now()` reading, so two scoring calls can only
differ when their clock readings differ — the wall clock is the single
hidden input. -/
theorem c9_clock_determinism (model : PredRow → ℚ) (featureDrugs : List String)
    (df : List ShortageEvent) (drugFilter companyFilter : Option String)
    (top_n : Nat) (t1 t2 : Int)
    (h : predictShortageRisk model featureDrugs df drugFilter companyFilter top_n t1 ≠
      predictShortageRisk model featureDrugs df drugFilter companyFilter top_n t2) :
    t1 ≠ t2 :=
  fun heq => h (by rw [heq])

/-- C9 (witness): the two clock readings of the concrete diverging
calls are indeed distinct. -/
theorem c9_clock_determinism_witness : (200 : Int) ≠ 1000 :=
  c9_clock_determinism c9Model ["druga"] c9Df none none 20 200 1000 (by decide)

theorem histShortages_append (sdf sdf2 : List ShortageEvent) (drug : String)
    (ref : Int) (h : ∀ e ∈ sdf2, ref ≤ e.initial_posting_date) :
    histShortages (sdf ++ sdf2) drug ref = histShortages sdf drug ref := by
  unfold histShortages
  rw [List.filter_append]
  have h2 : sdf2.filter (fun e =>
      decide (e.generic_name = some drug) && decide (e.initial_posting_date < ref)) = [] := by
    rw [List.filter_eq_nil_iff]
    intro e he
    simp only [Bool.and_eq_true, decide_eq_true_eq, not_and]
    intro _
    exact not_lt.2 (h e he)
  rw [h2, List.append_nil]

theorem companyShortages_append (sdf sdf2 : List ShortageEvent)
    (company : Option String) (ref : Int)
    (h : ∀ e ∈ sdf2, ref ≤ e.initial_posting_date) :
    companyShortages (sdf ++ sdf2) company ref = companyShortages sdf company ref := by
  unfold companyShortages
  rw [List.filter_append]
  have h2 : sdf2.filter (fun e =>
      companyEq e.company_name company && decide (e.initial_posting_date < ref)) = [] := by
    rw [List.filter_eq_nil_iff]
    intro e he
    simp only [Bool.and_eq_true, decide_eq_true_eq, not_and]
    intro _
    exact not_lt.2 (h e he)
  rw [h2, List.append_nil]

theorem companyEnforcements_append (edf edf2 : List EnforcementEvent)
    (cname : String) (ref : Int)
    (h : ∀ e ∈ edf2, ref ≤ e.recall_initiation_date) :
    companyEnforcements (edf ++ edf2) cname ref = companyEnforcements edf cname ref := by
  unfold companyEnforcements
  rw [List.filter_append]
  have h2 : edf2.filter (fun e =>
      firmContains e.recalling_firm (companySlice10 cname) &&
        decide (e.recall_initiation_date < ref)) = [] := by
    rw [List.filter_eq_nil_iff]
    intro e he
    simp only [Bool.and_eq_true, decide_eq_true_eq, not_and]
    intro _
    exact not_lt.2 (h e he)
  rw [h2, List.append_nil]

theorem companyEnforcements_nil (edf : List EnforcementEvent) (cname : String)
    (ref : Int) (h : ∀ e ∈ edf, ref < e.recall_initiation_date) :
    companyEnforcements edf cname ref = [] := by
  rw [companyEnforcements, List.filter_eq_nil_iff]
  intro e he
  simp only [Bool.and_eq_true, decide_eq_true_eq, not_and]
  intro _
  exact not_lt.2 (le_of_lt (h e he))

/-- C1 (confirmed).  Every windowed aggregate built by
`engineer_features` — historical shortage count, company shortage count,
the 30/90/365-day enforcement counters, the Class-I recall counter and
days-since-last-enforcement — is computed only from events dated strictly
before the reference date of the observation: appending any events dated on or
after the reference date leaves the whole feature row unchanged; and when
the reference date precedes every enforcement event, all four enforcement
counters are 0. -/
theorem c1_leakage_boundary :
    (∀ (row : TargetRecord) (sdf sdf2 : List ShortageEvent)
        (edf edf2 : List EnforcementEvent),
        (∀ e ∈ sdf2, row.reference_date ≤ e.initial_posting_date) →
        (∀ e ∈ edf2, row.reference_date ≤ e.recall_initiation_date) →
        engineerFeaturesRow row (sdf ++ sdf2) (edf ++ edf2) =
          engineerFeaturesRow row sdf edf) ∧
    (∀ (row : TargetRecord) (sdf : List ShortageEvent)
        (edf : List EnforcementEvent) (fr : FeatureRow),
        (∀ e ∈ edf, row.reference_date < e.recall_initiation_date) →
        engineerFeaturesRow row sdf edf = Except.ok fr →
        fr.recent_enforcements_30d = 0 ∧ fr.recent_enforcements_90d = 0 ∧
          fr.recent_enforcements_365d = 0 ∧ fr.class_i_recalls = 0) := by
  constructor
  · intro row sdf sdf2 edf edf2 hs he
    simp only [engineerFeaturesRow]
    rw [histShortages_append _ _ _ _ hs, companyShortages_append _ _ _ _ hs]
    rcases row.company_name with _ | cname
    · rfl
    · dsimp only
      rw [companyEnforcements_append _ _ _ _ he]
  · intro row sdf edf fr hed
    simp only [engineerFeaturesRow]
    rcases row.company_name with _ | cname
    · intro hok
      cases hok
    · dsimp only
      rw [companyEnforcements_nil _ _ _ hed]
      intro hok
      cases hok
      exact ⟨rfl, rfl, rfl, rfl⟩

/-- The observation used to witness C1. -/
def c1Row : TargetRecord :=
  { drug_name := "druga", company_name := some "pfizer inc",
    therapeutic_category := none, reference_date := 100,
    current_shortage := true, future_shortage := false,
    historical_shortage_count := 1, days_since_last_shortage := 50 }

/-- The feature row produced by the witness observation of C1. -/
def c1Features : FeatureRow :=
  { drug_name := "druga", company_name := some "pfizer inc",
    reference_date := 100, target := false,
    historical_shortage_count := 1, days_since_last_shortage := 50,
    company_shortage_count := 1, recent_enforcements_30d := 0,
    recent_enforcements_90d := 0, recent_enforcements_365d := 0,
    class_i_recalls := 0, days_since_last_enforcement := 999 }

/-- C1 (witness): appending a shortage row and an enforcement row
dated exactly on the reference date (the boundary) leaves the feature row
unchanged, and with the single enforcement event dated after the
reference date all four enforcement counters are 0. -/
theorem c1_leakage_boundary_witness :
    engineerFeaturesRow c1Row
        ([{ generic_name := some "druga", company_name := some "pfizer inc",
            therapeutic_category := none, initial_posting_date := 50 }] ++
         [{ generic_name := some "druga", company_name := some "pfizer inc",
            therapeutic_category := none, initial_posting_date := 100 }])
        ([{ recalling_firm := some "Pfizer Inc Global", classification := some "Class I",
            recall_initiation_date := 150 }] ++
         [{ recalling_firm := some "Pfizer Inc Global", classification := some "Class II",
            recall_initiation_date := 100 }]) =
      engineerFeaturesRow c1Row
        [{ generic_name := some "druga", company_name := some "pfizer inc",
           therapeutic_category := none, initial_posting_date := 50 }]
        [{ recalling_firm := some "Pfizer Inc Global", classification := some "Class I",
           recall_initiation_date := 150 }] ∧
    (c1Features.recent_enforcements_30d = 0 ∧ c1Features.recent_enforcements_90d = 0 ∧
      c1Features.recent_enforcements_365d = 0 ∧ c1Features.class_i_recalls = 0) :=
  ⟨c1_leakage_boundary.1 c1Row _ _ _ _ (by decide) (by decide),
   c1_leakage_boundary.2 c1Row
     [{ generic_name := some "druga", company_name := some "pfizer inc",
        therapeutic_category := none, initial_posting_date := 50 }]
     [{ recalling_firm := some "Pfizer Inc Global", classification := some "Class I",
        recall_initiation_date := 150 }]
     c1Features (by decide) (by rfl)⟩

theorem sorted_prefix_count (pre post : List ShortageEvent) (record : ShortageEvent)
    (hsorted : (pre ++ record :: post).Pairwise (fun a b => dateLE a b = true))
    (hnd : ((pre ++ record :: post).map (fun e => e.initial_posting_date)).Nodup) :
    ((pre ++ record :: post).filter
        (fun e => decide (e.initial_posting_date < record.initial_posting_date))).length
      = pre.length := by
  rw [List.filter_append]
  have hparts := List.pairwise_append.1 hsorted
  rw [List.map_append] at hnd
  have hdisj := (List.nodup_append.1 hnd).2.2
  have hpre : pre.filter
      (fun e => decide (e.initial_posting_date < record.initial_posting_date)) = pre := by
    rw [List.filter_eq_self]
    intro a ha
    rw [decide_eq_true_eq]
    have hle : a.initial_posting_date ≤ record.initial_posting_date := by
      have := hparts.2.2 a ha record (List.mem_cons_self _ _)
      simpa [dateLE] using this
    have hne : a.initial_posting_date ≠ record.initial_posting_date := by
      intro heq
      exact hdisj (List.mem_map_of_mem _ ha)
        (by rw [heq]; exact List.mem_map_of_mem _ (List.mem_cons_self _ _))
    exact lt_of_le_of_ne hle hne
  have hrest : (record :: post).filter
      (fun e => decide (e.initial_posting_date < record.initial_posting_date)) = [] := by
    rw [List.filter_eq_nil_iff]
    intro b hb
    rcases List.mem_cons.1 hb with hbr | hb
    · rw [hbr]
      simp
    · have := (List.pairwise_cons.1 hparts.2.1).1 b hb
      simp only [dateLE, decide_eq_true_eq] at this
      simp only [decide_eq_true_eq]
      exact not_lt.2 this
  rw [hpre, hrest, List.append_nil]

theorem drugRecords_hist_count (drug : String) (evs : List ShortageEvent)
    (r : TargetRecord) (hr : r ∈ drugRecords drug evs)
    (hnd : (evs.map (fun e => e.initial_posting_date)).Nodup) :
    r.historical_shortage_count =
      (evs.filter fun e =>
        decide (e.initial_posting_date < r.reference_date)).length := by
  simp only [drugRecords] at hr
  obtain ⟨pre, record, post, hs, hrec⟩ := mem_drugRecordsAux _ _ _ _ _ hr
  subst hrec
  simp only [mkTargetRecord, List.nil_append]
  have hsorted := pairwise_sortB dateLE
    (fun a b => by
      simp only [dateLE, decide_eq_true_eq]
      exact Int.le_total _ _)
    (fun a b c hab hbc => by
      simp only [dateLE, decide_eq_true_eq] at hab hbc ⊢
      exact le_trans hab hbc) evs
  have hndS : ((sortB dateLE evs).map (fun e => e.initial_posting_date)).Nodup :=
    ((perm_sortB dateLE evs).map _).nodup_iff.2 hnd
  rw [hs] at hsorted hndS
  have hcount := sorted_prefix_count pre post record hsorted hndS
  have hlen : ((sortB dateLE evs).filter (fun e =>
        decide (e.initial_posting_date < record.initial_posting_date))).length
      = (evs.filter (fun e =>
        decide (e.initial_posting_date < record.initial_posting_date))).length :=
    ((perm_sortB dateLE evs).filter _).length_eq
  rw [hs] at hlen
  rw [← hlen, hcount]

/-- C5 (counterexample).  The claim states that for every
LabeledObservation from a real event, `historical_shortage_count` equals
the number of same-drug events dated strictly before the reference date,
*including when the drug has several events on the same date*.  With two
same-drug events on the same date, the second observation has
`historical_shortage_count = 1` (its index in the sorted order) while no
event is dated strictly before its reference date. -/
theorem c5_counterexample :
    ¬(∀ (df : List ShortageEvent) (r : TargetRecord),
        r ∈ createTargetPositives df →
        r.historical_shortage_count =
          ((df.filter fun e => decide (e.generic_name = some r.drug_name)).filter
              fun e => decide (e.initial_posting_date < r.reference_date)).length) := by
  intro h
  have := h
    [{ generic_name := some "druga", company_name := some "c",
       therapeutic_category := none, initial_posting_date := 100 },
     { generic_name := some "druga", company_name := some "d",
       therapeutic_category := none, initial_posting_date := 100 }]
    { drug_name := "druga", company_name := some "d",
      therapeutic_category := none, reference_date := 100,
      current_shortage := true, future_shortage := false,
      historical_shortage_count := 1, days_since_last_shortage := 0 }
    (by decide)
  exact absurd this (by decide)

/-- C5 (amended).  For a LabeledObservation derived from a real event,
`historical_shortage_count` is the index of the observation in the
date-sorted event list; it equals the number of same-drug events dated
strictly before the reference date whenever the drug has no two events on
the same date (with same-date duplicates the index overcounts).  The
`FeatureVector` built from the observation recomputes the count with the
strict filter `initial_posting_date < reference_date`. -/
theorem c5_hist_count_amended :
    (∀ (df : List ShortageEvent) (r : TargetRecord),
        r ∈ createTargetPositives df →
        ((df.filter fun e => decide (e.generic_name = some r.drug_name)).map
            (fun e => e.initial_posting_date)).Nodup →
        r.historical_shortage_count =
          ((df.filter fun e => decide (e.generic_name = some r.drug_name)).filter
              fun e => decide (e.initial_posting_date < r.reference_date)).length) ∧
    (∀ (row : TargetRecord) (sdf : List ShortageEvent)
        (edf : List EnforcementEvent) (fr : FeatureRow),
        engineerFeaturesRow row sdf edf = Except.ok fr →
        fr.historical_shortage_count =
          (histShortages sdf row.drug_name row.reference_date).length) := by
  constructor
  · intro df r hr hnd
    rw [createTargetPositives, List.mem_flatMap] at hr
    obtain ⟨drug, hdrug, hrec⟩ := hr
    have heq : r.drug_name = drug := (drug_name_of_mem_drugRecords _ _ _ hrec).1
    rw [heq] at hnd ⊢
    exact drugRecords_hist_count drug _ r hrec hnd
  · intro row sdf edf fr
    simp only [engineerFeaturesRow]
    rcases row.company_name with _ | cname
    · intro hok
      cases hok
    · dsimp only
      intro hok
      cases hok
      rfl

/-- The two-event table (distinct dates) of the C5 witness. -/
def c5Events : List ShortageEvent :=
  [{ generic_name := some "druga", company_name := some "c",
     therapeutic_category := none, initial_posting_date := 50 },
   { generic_name := some "druga", company_name := some "c",
     therapeutic_category := none, initial_posting_date := 100 }]

/-- The second observation the Label Constructor produces for `c5Events`. -/
def c5Obs : TargetRecord :=
  { drug_name := "druga", company_name := some "c",
    therapeutic_category := none, reference_date := 100,
    current_shortage := true, future_shortage := false,
    historical_shortage_count := 1, days_since_last_shortage := 50 }

/-- An observation with empty history for the feature-recomputation part
of the C5 witness. -/
def c5Row2 : TargetRecord :=
  { drug_name := "drugb", company_name := some "acme",
    therapeutic_category := none, reference_date := 10,
    current_shortage := true, future_shortage := false,
    historical_shortage_count := 0, days_since_last_shortage := 999 }

/-- The feature row `c5Row2` produces on empty event tables. -/
def c5Fr : FeatureRow :=
  { drug_name := "drugb", company_name := some "acme",
    reference_date := 10, target := false, historical_shortage_count := 0,
    days_since_last_shortage := 999, company_shortage_count := 0,
    recent_enforcements_30d := 0, recent_enforcements_90d := 0,
    recent_enforcements_365d := 0, class_i_recalls := 0,
    days_since_last_enforcement := 999 }

/-- C5 (witness): a drug with two events on distinct dates (days 50
and 100); its second observation has `historical_shortage_count = 1`,
matching the single event strictly before day 100; and a concrete feature
row recomputing the count through the strict filter. -/
theorem c5_hist_count_amended_witness :
    c5Obs.historical_shortage_count =
      ((c5Events.filter fun e => decide (e.generic_name = some c5Obs.drug_name)).filter
          fun e => decide (e.initial_posting_date < c5Obs.reference_date)).length ∧
    c5Fr.historical_shortage_count =
      (histShortages [] c5Row2.drug_name c5Row2.reference_date).length :=
  ⟨c5_hist_count_amended.1 c5Events c5Obs (by decide) (by decide),
   c5_hist_count_amended.2 c5Row2 [] [] c5Fr (by rfl)⟩
